import Mathlib

/-!
Shallow embedding of `halotools/read_nbody.py` (the `Catalog_Manager` class):
catalog-filename filtering (`identify_relevant_catalogs`), nearest-snapshot
lookup (`find_nearest_snapshot_in_cache`), particle-count encoding
(`numptcl_to_string`), and catalog loading (`load_catalog`).

Modelling conventions: Python floats are modelled by `ℚ` (all numbers the
claims exercise are exactly representable); Python exceptions by
`Except PyError`; calls to `warnings.warn` by explicit `CatWarning` values
carried in the result; the filesystem, the remote archive and the external
FITS reader are explicit functional parameters.
-/

/-- The exceptions raised by the embedded code paths of `read_nbody.py`. -/
inductive PyError : Type
  | ioError
  | indexError
  | valueError
  | zeroDivisionError
  | urlError
deriving DecidableEq

/-- Warnings emitted via `warnings.warn`.  `drift a` stands for the message
"Closest match to desired snapshot has a scale factor of " followed by the
matched value `a`, so the constructor records the value the message quotes. -/
inductive CatWarning : Type
  | zeroHalos
  | zeroParticles
  | drift (a : ℚ)
deriving DecidableEq

/-- Python slice `s[i:j]` with nonnegative bounds (clamped at the ends). -/
def strSlice (s : String) (i j : ℕ) : String := String.mk ((s.data.take j).drop i)

/-- Python slice `s[0:n]`. -/
def strTake (s : String) (n : ℕ) : String := String.mk (s.data.take n)

/-- Python slice `s[-n:]` (the whole string when `n` is at least its length). -/
def takeRight (s : String) (n : ℕ) : String := String.mk (s.data.drop (s.data.length - n))

/-- Python slice `s[-k1:-k2]` with both bounds negative (clamped at 0). -/
def pySliceNegNeg (s : String) (k1 k2 : ℕ) : String :=
  strSlice s (s.data.length - min k1 s.data.length) (s.data.length - min k2 s.data.length)

/-- Numeric value of a run of decimal digits. -/
def digitsToNat (cs : List Char) : ℕ := cs.foldl (fun acc c => 10 * acc + (c.toNat - 48)) 0

/-- Python `float()` restricted to the plain unsigned decimal literals
(`"0.7000"`, `"12"`, `".5"`) that fixed-offset slicing extracts from
conventionally named catalog filenames; every other string is rejected,
modelling the `ValueError` that `float()` raises. -/
def parseDecimal (s : String) : Option ℚ :=
  let intPart := s.data.takeWhile (fun c => c.isDigit)
  let rest := s.data.dropWhile (fun c => c.isDigit)
  match rest with
  | [] => if intPart.isEmpty then none else some (digitsToNat intPart : ℚ)
  | '.' :: fracPart =>
      if fracPart.all (fun c => c.isDigit) && (!intPart.isEmpty || !fracPart.isEmpty) then
        some ((digitsToNat intPart : ℚ) + (digitsToNat fracPart : ℚ) / 10 ^ fracPart.length)
      else none
  | _ => none

/-- The singular-to-plural normalisation applied to `catalog_type`
("halo" to "halos", "particle" to "particles"). -/
def fixPlural (ct : String) : String :=
  if ct = "halo" then "halos" else if ct = "particle" then "particles" else ct

/-- Kind filter of `identify_relevant_catalogs`:
`c[-len(catalog_type)-5:] == catalog_type + ".fits"`. -/
def kindOkB (ct : String) (c : String) : Bool :=
  decide (takeRight c (ct.length + 5) = ct ++ ".fits")

/-- Simulation-name filter as a total predicate: the first `len(simname)`
characters equal `simname` and the next character is an underscore. -/
def simnameOkB (simname c : String) : Bool :=
  decide (strTake c simname.length = simname) && decide (c.data.get? simname.length = some '_')

/-- Halo-finder filter of `identify_relevant_catalogs`:
`c[-11-len(halo_finder):-11] == halo_finder`. -/
def hfOkB (hf : String) (c : String) : Bool :=
  decide (pySliceNegNeg c (11 + hf.length) 11 = hf)

/-- Simulation-name filter exactly as executed by the source:
`(c[0:len(simname)] != simname) or (c[len(simname)] != '_')` excludes the
candidate; the `or` short-circuits, so `c[len(simname)]` is only evaluated
when the prefix test passed, and it raises `IndexError` when the string is
no longer than `simname` (which, given a passing prefix test, forces
`c == simname`). -/
def simnamePass (simname c : String) : Except PyError Bool :=
  if strTake c simname.length ≠ simname then .ok false
  else
    match c.data.get? simname.length with
    | none => .error .indexError
    | some ch => .ok (decide (ch = '_'))

/-- Run a fallible test over a list, stopping at the first exception —
the behaviour of a Python `for` loop whose body may raise. -/
def mapExcept {α β : Type} (f : α → Except PyError β) : List α → Except PyError (List β)
  | [] => .ok []
  | x :: xs =>
    match f x with
    | .error e => .error e
    | .ok y =>
      match mapExcept f xs with
      | .error e => .error e
      | .ok ys => .ok (y :: ys)

/-- Kind filter lifted over the optional argument (`None` imposes nothing). -/
def kindOkOpt (catalog_type : Option String) (c : String) : Bool :=
  match catalog_type with
  | none => true
  | some ct => kindOkB ct c

/-- Simulation-name filter lifted over the optional argument. -/
def simPassOpt (simname : Option String) (c : String) : Except PyError Bool :=
  match simname with
  | none => .ok true
  | some s => simnamePass s c

/-- Halo-finder filter lifted over the optional argument. -/
def hfOkOpt (halo_finder : Option String) (c : String) : Bool :=
  match halo_finder with
  | none => true
  | some hf => hfOkB hf c

/-- `Catalog_Manager.identify_relevant_catalogs`: normalises the kind,
builds one boolean mask per supplied restriction over the full cached
listing, and keeps the filenames passing every mask.  Of the three loops
only the simulation-name one can raise, and it runs over the whole listing
regardless of the other masks, so the first candidate on which
`simnamePass` raises aborts the call — which `mapExcept` reproduces. -/
def identifyRelevantCatalogs (cache : List String)
    (catalog_type0 simname halo_finder : Option String) : Except PyError (List String) :=
  let catalog_type := catalog_type0.map fixPlural
  match mapExcept (simPassOpt simname) cache with
  | .error e => .error e
  | .ok simMask =>
    .ok (((cache.zip simMask).filter
      (fun p => kindOkOpt catalog_type p.1 && p.2 && hfOkOpt halo_finder p.1)).map Prod.fst)

/-- First-occurrence argmin over `key` (`np.argmin` returns the earliest
index attaining the minimum); returns the minimising element itself. -/
def argminFirstBy {α : Type} (key : α → ℚ) : List α → Option α
  | [] => none
  | x :: xs =>
    match argminFirstBy key xs with
    | none => some x
    | some y => if key x ≤ key y then some x else some y

/-- Scale-factor decoding of `find_nearest_snapshot_in_cache`:
`float(a[len(simname)+2 : len(simname)+8])`. -/
def decodeScaleFactor (simname a : String) : Except PyError ℚ :=
  match parseDecimal (strSlice a (simname.length + 2) (simname.length + 8)) with
  | none => .error .valueError
  | some q => .ok q

/-- The halo-finder override of `find_nearest_snapshot_in_cache`: when
looking for particle data the halo finder is ignored (set to `None`). -/
def effectiveHaloFinder (catalog_type : String) (halo_finder : Option String) : Option String :=
  if catalog_type = "particles" then none else halo_finder

/-- Argument validation of `find_nearest_snapshot_in_cache`: exactly one of
`scale_factor` and `redshift` must be supplied (both or neither raises
`IOError`); a redshift is converted via `1/(1+z)`, whose float division
raises `ZeroDivisionError` when `1+z` is zero. -/
def resolveScaleFactor (scale_factor redshift : Option ℚ) : Except PyError ℚ :=
  match scale_factor with
  | none =>
    match redshift with
    | none => .error .ioError
    | some z => if 1 + z = 0 then .error .zeroDivisionError else .ok (1 / (1 + z))
  | some sf =>
    match redshift with
    | some _ => .error .ioError
    | none => .ok sf

/-- Body of `find_nearest_snapshot_in_cache` after argument validation:
normalise the kind, override the halo finder for particles, filter the
cache, return `(None, None)` with a warning when a halo or particle request
matches nothing (any other kind falls through this case analysis), decode
each candidate's scale factor, and take the first-occurrence argmin of the
absolute difference — `np.argmin` on an empty array raises `ValueError`.
The source indexes the filename and value lists separately with the argmin
index; since both lists have the candidates' common length, pairing them
before the argmin selects the same entry.  A final warning quotes the
matched value when it misses the request by more than `tol`. -/
def findNearestCore (cache : List String) (tol : ℚ) (catalog_type0 : String)
    (scale_factor : ℚ) (simname : String) (halo_finder0 : Option String) :
    Except PyError ((Option String × Option ℚ) × List CatWarning) :=
  let catalog_type := fixPlural catalog_type0
  let halo_finder := effectiveHaloFinder catalog_type halo_finder0
  match identifyRelevantCatalogs cache (some catalog_type) (some simname) halo_finder with
  | .error e => .error e
  | .ok relevant =>
    if relevant.length = 0 ∧ catalog_type = "halos" then
      .ok ((none, none), [CatWarning.zeroHalos])
    else if relevant.length = 0 ∧ catalog_type = "particles" then
      .ok ((none, none), [CatWarning.zeroParticles])
    else
      match mapExcept (decodeScaleFactor simname) relevant with
      | .error e => .error e
      | .ok vals =>
        match argminFirstBy (fun p => |p.2 - scale_factor|) (relevant.zip vals) with
        | none => .error .valueError
        | some p =>
          .ok ((some p.1, some p.2),
            if |p.2 - scale_factor| > tol then [CatWarning.drift p.2] else [])

/-- `Catalog_Manager.find_nearest_snapshot_in_cache`: validate the
scale-factor/redshift arguments, then run the lookup.  `tol` stands for the
configured `defaults.scale_factor_difference_tol`. -/
def findNearestSnapshot (cache : List String) (tol : ℚ) (catalog_type : String)
    (scale_factor redshift : Option ℚ) (simname : String) (halo_finder : Option String) :
    Except PyError ((Option String × Option ℚ) × List CatWarning) :=
  match resolveScaleFactor scale_factor redshift with
  | .error e => .error e
  | .ok sf => findNearestCore cache tol catalog_type sf simname halo_finder

/-- `np.round` (round half to even) on an exact rational. -/
def npRound (x : ℚ) : ℤ :=
  if x - Int.floor x < 1 / 2 then Int.floor x
  else if x - Int.floor x > 1 / 2 then Int.floor x + 1
  else if Int.floor x % 2 = 0 then Int.floor x else Int.floor x + 1

/-- The order-of-magnitude `while` loop of `numptcl_to_string`: starting
from `ipower`, find the first power with `round(numptcl / 10**ipower) < 10`.
The source loop is unbounded; the explicit iteration budget only serves
termination and exceeds the loop's exit index for every input below
`10 ** 63`, far beyond any particle count. -/
def oomLoop (numptcl : ℚ) : ℕ → ℕ → ℕ
  | 0, ipower => ipower
  | fuel + 1, ipower =>
    if npRound (numptcl / 10 ^ ipower) < 10 then ipower
    else oomLoop numptcl fuel (ipower + 1)

/-- `Catalog_Manager.numptcl_to_string`: reduce the particle count to the
3-character mantissa-exponent string used in particle-catalog filenames.
The source increments `ipower` once more after the test succeeds and then
subtracts 1; `oomLoop` directly returns the index at which the test first
succeeded, the same value. -/
def numptcl_to_string (numptcl : ℚ) : String :=
  let power := oomLoop numptcl 64 0
  let powfactor : ℚ := 10 ^ power
  let reduced := npRound (numptcl / powfactor)
  let ce := Nat.repr power
  let cp := Int.repr (Int.floor (reduced : ℚ))
  cp ++ "e" ++ ce

/-- Byte strings written to and read from disk or the network. -/
abbrev Bytes := List ℕ

/-- `os.path.join` for the plain relative components used here. -/
def pathJoin (a b : String) : String := a ++ "/" ++ b

/-- Observable outcome of one `load_catalog` call: the returned value (or
the exception raised), the URLs opened with `urllib2.urlopen`, and the
files written, in order. -/
structure LoadOutcome (Table : Type) where
  result : Except PyError (Option Table)
  networkCalls : List String
  writes : List (String × Bytes)

/-- `Catalog_Manager.load_catalog`, parameterised over the filesystem `fs`
(`None` = no such file), the FITS reader `parseFits` (for both the local
read and the re-read of the just-written download, whose content is the
downloaded byte string), the remote archive `net`, the cache-directory map
`getCatalogsDir` (`configuration.get_catalogs_dir`) and the two default
filenames computed in `__init__`.  The source compares `filename` against
the default halo filename with a bare `if` whose assignment to
`catalog_type` is dead: the following `if filename == default_particle ...
else: raise IOError` alone decides the branch, so a download happens only
for the default particle filename and every other absent filename —
the default halo filename included — raises `IOError`. -/
def load_catalog (Table : Type)
    (fs : String → Option Bytes) (parseFits : Bytes → Table)
    (net : String → Except PyError Bytes) (getCatalogsDir : String → String)
    (defaultHaloCatalogFilename defaultParticleCatalogFilename : String)
    (dirname : String) (filename0 : Option String) (download_yn : Bool) (url : String) :
    LoadOutcome Table :=
  let filename := filename0.getD defaultHaloCatalogFilename
  match fs (pathJoin dirname filename) with
  | some content => ⟨.ok (some (parseFits content)), [], []⟩
  | none =>
    if download_yn = false then ⟨.ok none, [], []⟩
    else if filename = defaultParticleCatalogFilename then
      let remote := pathJoin url filename
      match net remote with
      | .error e => ⟨.error e, [remote], []⟩
      | .ok bs =>
        let outFile := pathJoin (getCatalogsDir "particles") filename
        ⟨.ok (some (parseFits bs)), [remote], [(outFile, bs)]⟩
    else ⟨.error .ioError, [], []⟩

/-! Helper lemmas. -/

theorem mapExcept_ok_length {α β : Type} (f : α → Except PyError β) :
    ∀ (l : List α) (l2 : List β), mapExcept f l = .ok l2 → l2.length = l.length := by
  intro l
  induction l with
  | nil =>
    intro l2 h
    simp only [mapExcept, Except.ok.injEq] at h
    simp [← h]
  | cons x xs ih =>
    intro l2 h
    simp only [mapExcept] at h
    cases hfx : f x with
    | error e => rw [hfx] at h; exact absurd h (by simp)
    | ok y =>
      rw [hfx] at h
      cases hxs : mapExcept f xs with
      | error e => rw [hxs] at h; exact absurd h (by simp)
      | ok ys =>
        rw [hxs] at h
        simp only [Except.ok.injEq] at h
        subst h
        simp [ih ys hxs]

theorem zip_get?_iff {α β : Type} :
    ∀ (l1 : List α) (l2 : List β) (j : ℕ) (x : α) (y : β),
      (l1.zip l2).get? j = some (x, y) ↔ (l1.get? j = some x ∧ l2.get? j = some y) := by
  intro l1
  induction l1 with
  | nil => intro l2 j x y; simp
  | cons a l1 ih =>
    intro l2 j x y
    cases l2 with
    | nil => simp
    | cons b l2 =>
      cases j with
      | zero => simp [Prod.ext_iff]
      | succ j => simpa using ih l2 j x y

theorem argminFirstBy_spec {α : Type} (key : α → ℚ) :
    ∀ (l : List α), l ≠ [] →
      ∃ (i : ℕ) (r : α), argminFirstBy key l = some r ∧ l.get? i = some r ∧
        (∀ j y, l.get? j = some y → key r ≤ key y) ∧
        (∀ j, j < i → ∀ y, l.get? j = some y → key r < key y) := by
  intro l
  induction l with
  | nil => intro h; exact absurd rfl h
  | cons x xs ih =>
    intro _
    by_cases hxs : xs = []
    · subst hxs
      refine ⟨0, x, by simp [argminFirstBy], by simp, ?_, ?_⟩
      · intro j y hy
        cases j with
        | zero => simp only [List.get?_cons_zero, Option.some.injEq] at hy; subst hy; exact le_refl _
        | succ j => simp at hy
      · intro j hj; exact absurd hj (Nat.not_lt_zero j)
    · obtain ⟨i', r', h1, h2, h3, h4⟩ := ih hxs
      by_cases hk : key x ≤ key r'
      · refine ⟨0, x, by simp [argminFirstBy, h1, hk], by simp, ?_, ?_⟩
        · intro j y hy
          cases j with
          | zero =>
            simp only [List.get?_cons_zero, Option.some.injEq] at hy
            subst hy; exact le_refl _
          | succ j =>
            simp only [List.get?_cons_succ] at hy
            exact le_trans hk (h3 j y hy)
        · intro j hj; exact absurd hj (Nat.not_lt_zero j)
      · have hlt : key r' < key x := lt_of_not_le hk
        refine ⟨i' + 1, r', by simp [argminFirstBy, h1, hk], by simpa using h2, ?_, ?_⟩
        · intro j y hy
          cases j with
          | zero =>
            simp only [List.get?_cons_zero, Option.some.injEq] at hy
            subst hy; exact le_of_lt hlt
          | succ j =>
            simp only [List.get?_cons_succ] at hy
            exact h3 j y hy
        · intro j hj y hy
          cases j with
          | zero =>
            simp only [List.get?_cons_zero, Option.some.injEq] at hy
            subst hy; exact hlt
          | succ j =>
            simp only [List.get?_cons_succ] at hy
            exact h4 j (Nat.lt_of_succ_lt_succ hj) y hy

theorem string_eq_of_data_eq {a b : String} (h : a.data = b.data) : a = b := by
  cases a; cases b; exact congrArg String.mk h

theorem strTake_length_self (s : String) : strTake s s.length = s := by
  apply string_eq_of_data_eq
  show s.data.take s.data.length = s.data
  simp

theorem simnamePass_eq_ok {simname c : String} (h : c ≠ simname) :
    simnamePass simname c = .ok (simnameOkB simname c) := by
  unfold simnamePass simnameOkB
  by_cases hpre : strTake c simname.length = simname
  · rw [if_neg (by simpa using hpre)]
    have hdata : c.data.take simname.length = simname.data := congrArg String.data hpre
    have hsl : simname.length = simname.data.length := rfl
    have hlen2 := congrArg List.length hdata
    rw [List.length_take] at hlen2
    have hlen : simname.length ≤ c.data.length := by omega
    have hne : simname.length ≠ c.data.length := by
      intro heq
      apply h
      apply string_eq_of_data_eq
      rw [← hdata, heq, List.take_length]
    have hlt : simname.length < c.data.length := lt_of_le_of_ne hlen hne
    rw [List.get?_eq_get hlt, decide_eq_true hpre]
    simp only [Bool.true_and, Option.some.injEq]
  · rw [if_pos (by simpa using hpre)]
    rw [decide_eq_false hpre]
    simp only [Bool.false_and]

theorem mapExcept_simPass (s : String) :
    ∀ cache : List String, s ∉ cache →
      mapExcept (simPassOpt (some s)) cache = .ok (cache.map (simnameOkB s)) := by
  intro cache
  induction cache with
  | nil => intro _; rfl
  | cons c cs ih =>
    intro h
    have hc : c ≠ s := fun e => h (by simp [e])
    have hcs : s ∉ cs := fun m => h (by simp [m])
    simp only [mapExcept, simPassOpt, simnamePass_eq_ok hc, ih hcs, List.map]

theorem mapExcept_simPass_error (s : String) :
    ∀ cache : List String, s ∈ cache →
      mapExcept (simPassOpt (some s)) cache = .error .indexError := by
  intro cache
  induction cache with
  | nil => intro h; simp at h
  | cons c cs ih =>
    intro h
    by_cases hc : c = s
    · subst hc
      have hself : simnamePass c c = .error .indexError := by
        unfold simnamePass
        rw [if_neg (by simp [strTake_length_self])]
        have hnone : c.data.get? c.length = none := List.get?_eq_none.mpr (le_refl _)
        rw [hnone]
      simp only [mapExcept, simPassOpt, hself]
    · have hcs : s ∈ cs := by
        rcases List.mem_cons.mp h with h1 | h2
        · exact absurd h1.symm hc
        · exact h2
      simp only [mapExcept, simPassOpt, simnamePass_eq_ok hc, ih hcs]

theorem zip_map_filter (g p q : String → Bool) :
    ∀ cache : List String,
      (((cache.zip (cache.map g)).filter (fun x => p x.1 && x.2 && q x.1)).map Prod.fst)
        = cache.filter (fun c => p c && g c && q c) := by
  intro cache
  induction cache with
  | nil => rfl
  | cons c cs ih =>
    simp only [List.map, List.zip_cons_cons, List.filter_cons]
    by_cases hx : (p c && g c && q c) = true
    · simp only [hx, if_pos, List.map]
      rw [ih]
    · simp only [hx]
      simp only [Bool.false_eq_true, if_false, ih]

theorem identifyRelevantCatalogs_eq_ok (cache : List String) (ct : Option String)
    (s : String) (hf : Option String) (h : s ∉ cache) :
    identifyRelevantCatalogs cache ct (some s) hf =
      .ok (cache.filter
        (fun c => kindOkOpt (ct.map fixPlural) c && simnameOkB s c && hfOkOpt hf c)) := by
  unfold identifyRelevantCatalogs
  rw [mapExcept_simPass s cache h]
  exact congrArg Except.ok
    (zip_map_filter (simnameOkB s) (kindOkOpt (ct.map fixPlural)) (hfOkOpt hf) cache)

theorem identifyRelevantCatalogs_indexError (cache : List String) (ct hf : Option String)
    (s : String) (h : s ∈ cache) :
    identifyRelevantCatalogs cache ct (some s) hf = .error .indexError := by
  unfold identifyRelevantCatalogs
  rw [mapExcept_simPass_error s cache h]

/-! Claim theorems. -/

/-- C5: filtering in `identify_relevant_catalogs` is the conjunction of the
kind, simulation-name and halo-finder string predicates — on every listing
on which the call completes (no filename equal to the bare simname, the
out-of-range case treated separately), a filename is kept exactly when it
passes all three — and concretely `bolshoi_a0.7000_rockstar_halos.fits` is
included for `(halos, bolshoi, rockstar)` and excluded for
`(halos, bolshoi, bdm)`. -/
theorem claim_C5 :
    (∀ (cache : List String) (ct s hf c : String), s ∉ cache →
      ∃ l, identifyRelevantCatalogs cache (some ct) (some s) (some hf) = .ok l ∧
        (c ∈ l ↔ c ∈ cache ∧ kindOkB (fixPlural ct) c = true ∧ simnameOkB s c = true ∧
          hfOkB hf c = true)) ∧
    identifyRelevantCatalogs ["bolshoi_a0.7000_rockstar_halos.fits"] (some "halos")
      (some "bolshoi") (some "rockstar") = .ok ["bolshoi_a0.7000_rockstar_halos.fits"] ∧
    identifyRelevantCatalogs ["bolshoi_a0.7000_rockstar_halos.fits"] (some "halos")
      (some "bolshoi") (some "bdm") = .ok [] := by
  refine ⟨?_, by rfl, by rfl⟩
  intro cache ct s hf c h
  refine ⟨_, identifyRelevantCatalogs_eq_ok cache (some ct) s (some hf) h, ?_⟩
  simp [List.mem_filter, kindOkOpt, hfOkOpt, Option.map_some, Bool.and_eq_true, and_assoc]

/-- Witness for C5: the general conjunct applied to the concrete
one-element cache of its own example. -/
theorem claim_C5_witness :
    ("bolshoi" ∉ (["bolshoi_a0.7000_rockstar_halos.fits"] : List String)) ∧
    ∃ l, identifyRelevantCatalogs ["bolshoi_a0.7000_rockstar_halos.fits"] (some "halos")
        (some "bolshoi") (some "rockstar") = .ok l ∧
      ("bolshoi_a0.7000_rockstar_halos.fits" ∈ l ↔
        "bolshoi_a0.7000_rockstar_halos.fits" ∈
          (["bolshoi_a0.7000_rockstar_halos.fits"] : List String) ∧
        kindOkB (fixPlural "halos") "bolshoi_a0.7000_rockstar_halos.fits" = true ∧
        simnameOkB "bolshoi" "bolshoi_a0.7000_rockstar_halos.fits" = true ∧
        hfOkB "rockstar" "bolshoi_a0.7000_rockstar_halos.fits" = true) :=
  ⟨by decide, claim_C5.1 ["bolshoi_a0.7000_rockstar_halos.fits"] "halos" "bolshoi" "rockstar"
    "bolshoi_a0.7000_rockstar_halos.fits" (by decide)⟩

/-- C10 counterexample: the claim as stated says any cached filename of
length at most `len(simname)` makes the call raise an out-of-bounds
indexing error, but a listing containing only `"xy"` (length 2, at most
`len("bolshoi") = 7`) is processed without error — the short-circuiting
`or` skips `c[len(simname)]` because the prefix test already failed, and
the candidate is merely excluded. -/
theorem claim_C10_cex :
    ("xy".length ≤ "bolshoi".length) ∧
    identifyRelevantCatalogs ["xy"] (some "halos") (some "bolshoi") none = .ok [] := by
  exact ⟨by decide, by rfl⟩

/-- C10 amended: when a simname is supplied, the call raises the
out-of-bounds indexing error exactly when the listing contains a filename
equal to the simname itself (the only string of length at most
`len(simname)` that passes the prefix test, so that `c[len(simname)]` is
evaluated); for every listing without such a filename the call completes
normally. -/
theorem claim_C10 (cache : List String) (ct hf : Option String) (s : String) :
    (s ∈ cache → identifyRelevantCatalogs cache ct (some s) hf = .error .indexError) ∧
    (s ∉ cache → ∃ l, identifyRelevantCatalogs cache ct (some s) hf = .ok l) := by
  constructor
  · intro h
    exact identifyRelevantCatalogs_indexError cache ct hf s h
  · intro h
    exact ⟨_, identifyRelevantCatalogs_eq_ok cache ct s hf h⟩

/-- Witness for C10: a cache containing the filename `"bolshoi"` itself
makes the simname-filtered call raise `IndexError`. -/
theorem claim_C10_witness :
    ("bolshoi" ∈ (["bolshoi"] : List String)) ∧
    identifyRelevantCatalogs ["bolshoi"] (some "halos") (some "bolshoi") none =
      .error .indexError :=
  ⟨by decide, (claim_C10 ["bolshoi"] (some "halos") none "bolshoi").1 (by decide)⟩

/-- C3: `find_nearest_snapshot_in_cache` raises the invalid-request
`IOError` when both a scale factor and a redshift are supplied, and also
when neither is; when only a redshift is supplied (with `1+z` nonzero, the
only case float division admits) it is converted via `a = 1/(1+z)` and the
lookup proceeds exactly as for that scale factor. -/
theorem claim_C3 :
    (∀ (cache : List String) (tol : ℚ) (ct : String) (sf z : ℚ) (s : String)
        (hf : Option String),
      findNearestSnapshot cache tol ct (some sf) (some z) s hf = .error .ioError) ∧
    (∀ (cache : List String) (tol : ℚ) (ct s : String) (hf : Option String),
      findNearestSnapshot cache tol ct none none s hf = .error .ioError) ∧
    (∀ (cache : List String) (tol : ℚ) (ct : String) (z : ℚ) (s : String)
        (hf : Option String), 1 + z ≠ 0 →
      findNearestSnapshot cache tol ct none (some z) s hf =
        findNearestCore cache tol ct (1 / (1 + z)) s hf) := by
  refine ⟨fun cache tol ct sf z s hf => rfl, fun cache tol ct s hf => rfl, ?_⟩
  intro cache tol ct z s hf h
  simp only [findNearestSnapshot, resolveScaleFactor, if_neg h]

/-- Witness for C3: the redshift-only conversion applied at `z = 1`. -/
theorem claim_C3_witness :
    (1 + (1 : ℚ) ≠ 0) ∧
    findNearestSnapshot [] 1 "halos" none (some 1) "bolshoi" none =
      findNearestCore [] 1 "halos" (1 / (1 + 1)) "bolshoi" none :=
  ⟨by norm_num, claim_C3.2.2 [] 1 "halos" 1 "bolshoi" none (by norm_num)⟩

/-- C4: a halo or particle request (the catalog kinds of this system,
singular forms included) whose filters match zero cached filenames returns
`(None, None)` together with the corresponding warning, and never raises. -/
theorem claim_C4 (cache : List String) (tol : ℚ) (ct : String) (sf : ℚ) (s : String)
    (hf : Option String)
    (hk : fixPlural ct = "halos" ∨ fixPlural ct = "particles")
    (h0 : identifyRelevantCatalogs cache (some (fixPlural ct)) (some s)
        (effectiveHaloFinder (fixPlural ct) hf) = .ok []) :
    findNearestSnapshot cache tol ct (some sf) none s hf =
      .ok ((none, none),
        [if fixPlural ct = "halos" then CatWarning.zeroHalos else CatWarning.zeroParticles]) := by
  show findNearestCore cache tol ct sf s hf = _
  simp only [findNearestCore, h0]
  rcases hk with hk | hk <;> simp [hk]

/-- Witness for C4: an empty cache with a halo request. -/
theorem claim_C4_witness :
    (fixPlural "halos" = "halos" ∨ fixPlural "halos" = "particles") ∧
    identifyRelevantCatalogs [] (some (fixPlural "halos")) (some "bolshoi")
      (effectiveHaloFinder (fixPlural "halos") (some "rockstar")) = .ok [] ∧
    findNearestSnapshot [] 1 "halos" (some (1 / 2)) none "bolshoi" (some "rockstar") =
      .ok ((none, none),
        [if fixPlural "halos" = "halos" then CatWarning.zeroHalos
          else CatWarning.zeroParticles]) :=
  ⟨Or.inl rfl, rfl,
    claim_C4 [] 1 "halos" (1 / 2) "bolshoi" (some "rockstar") (Or.inl rfl) rfl⟩

/-- C8: when the candidate set is non-empty and the nearest match misses
the requested scale factor by more than the tolerance, the lookup still
returns that match (filename and matched value) and emits the drift
warning, which quotes the matched value; it does not fail. -/
theorem claim_C8 (cache : List String) (tol : ℚ) (ct : String) (sf : ℚ) (s : String)
    (hf : Option String) (relevant : List String) (vals : List ℚ) (f : String) (a : ℚ)
    (h1 : identifyRelevantCatalogs cache (some (fixPlural ct)) (some s)
        (effectiveHaloFinder (fixPlural ct) hf) = .ok relevant)
    (h2 : relevant ≠ [])
    (h3 : mapExcept (decodeScaleFactor s) relevant = .ok vals)
    (h4 : argminFirstBy (fun p => |p.2 - sf|) (relevant.zip vals) = some (f, a))
    (h5 : |a - sf| > tol) :
    findNearestSnapshot cache tol ct (some sf) none s hf =
      .ok ((some f, some a), [CatWarning.drift a]) := by
  show findNearestCore cache tol ct sf s hf = _
  simp only [findNearestCore, h1, h3, h4]
  rw [if_neg (fun hcon => h2 (List.length_eq_zero.mp hcon.1))]
  rw [if_neg (fun hcon => h2 (List.length_eq_zero.mp hcon.1))]
  rw [if_pos h5]

/-- Witness for C8: a single cached snapshot whose decoded scale factor
(an integer-valued one, `500000`) misses the requested scale factor 1 by
far more than the tolerance 1. -/
theorem claim_C8_witness :
    (identifyRelevantCatalogs ["bolshoi_a500000_rockstar_halos.fits"]
        (some (fixPlural "halos")) (some "bolshoi")
        (effectiveHaloFinder (fixPlural "halos") (some "rockstar")) =
      .ok ["bolshoi_a500000_rockstar_halos.fits"]) ∧
    ((["bolshoi_a500000_rockstar_halos.fits"] : List String) ≠ []) ∧
    (mapExcept (decodeScaleFactor "bolshoi") ["bolshoi_a500000_rockstar_halos.fits"] =
      .ok [((500000 : ℕ) : ℚ)]) ∧
    (argminFirstBy (fun p => |p.2 - (1 : ℚ)|)
        ((["bolshoi_a500000_rockstar_halos.fits"] : List String).zip [((500000 : ℕ) : ℚ)]) =
      some ("bolshoi_a500000_rockstar_halos.fits", ((500000 : ℕ) : ℚ))) ∧
    (|((500000 : ℕ) : ℚ) - 1| > 1) ∧
    findNearestSnapshot ["bolshoi_a500000_rockstar_halos.fits"] 1 "halos"
        (some 1) none "bolshoi" (some "rockstar") =
      .ok ((some "bolshoi_a500000_rockstar_halos.fits", some ((500000 : ℕ) : ℚ)),
        [CatWarning.drift ((500000 : ℕ) : ℚ)]) :=
  ⟨rfl, by decide, rfl, rfl, by norm_num,
    claim_C8 ["bolshoi_a500000_rockstar_halos.fits"] 1 "halos" 1 "bolshoi"
      (some "rockstar") ["bolshoi_a500000_rockstar_halos.fits"] [((500000 : ℕ) : ℚ)]
      "bolshoi_a500000_rockstar_halos.fits" ((500000 : ℕ) : ℚ) rfl (by decide) rfl rfl
      (by norm_num)⟩

theorem argminFirstBy_singleton {α : Type} (key : α → ℚ) (x : α) :
    argminFirstBy key [x] = some x := rfl

theorem argminFirstBy_cons_le {α : Type} (key : α → ℚ) (x y : α) (xs : List α)
    (h : argminFirstBy key xs = some y) (hle : key x ≤ key y) :
    argminFirstBy key (x :: xs) = some x := by
  simp only [argminFirstBy, h]
  rw [if_pos hle]

theorem argminFirstBy_cons_gt {α : Type} (key : α → ℚ) (x y : α) (xs : List α)
    (h : argminFirstBy key xs = some y) (hgt : ¬key x ≤ key y) :
    argminFirstBy key (x :: xs) = some y := by
  simp only [argminFirstBy, h]
  rw [if_neg hgt]

/-- C2: on every non-empty filtered candidate set whose scale factors all
decode, the lookup returns the filename whose decoded scale factor
minimises the absolute difference to the request together with that value,
breaking ties towards the earliest listing position; and concretely for
decoded scale factors 0.5, 0.7, 0.9 and query 0.65 the returned scale
factor is 0.7. -/
theorem claim_C2 :
    (∀ (cache : List String) (tol : ℚ) (ct : String) (sf : ℚ) (s : String)
        (hf : Option String) (relevant : List String) (vals : List ℚ),
      identifyRelevantCatalogs cache (some (fixPlural ct)) (some s)
          (effectiveHaloFinder (fixPlural ct) hf) = .ok relevant →
      relevant ≠ [] →
      mapExcept (decodeScaleFactor s) relevant = .ok vals →
      ∃ (i : ℕ) (f : String) (a : ℚ) (w : List CatWarning),
        relevant.get? i = some f ∧ vals.get? i = some a ∧
        findNearestSnapshot cache tol ct (some sf) none s hf = .ok ((some f, some a), w) ∧
        (∀ j b, vals.get? j = some b → |a - sf| ≤ |b - sf|) ∧
        (∀ j, j < i → ∀ b, vals.get? j = some b → |a - sf| < |b - sf|)) ∧
    (∀ tol : ℚ, ∃ w : List CatWarning,
      findNearestSnapshot
        ["bolshoi_a0.5000_rockstar_halos.fits", "bolshoi_a0.7000_rockstar_halos.fits",
          "bolshoi_a0.9000_rockstar_halos.fits"] tol "halos" (some (13 / 20)) none
        "bolshoi" (some "rockstar") =
        .ok ((some "bolshoi_a0.7000_rockstar_halos.fits", some (7 / 10)), w)) := by
  constructor
  · intro cache tol ct sf s hf relevant vals h1 h2 h3
    have hlen : vals.length = relevant.length := mapExcept_ok_length _ relevant vals h3
    have hzne : relevant.zip vals ≠ [] := by
      cases relevant with
      | nil => exact absurd rfl h2
      | cons r rs =>
        cases vals with
        | nil => simp at hlen
        | cons v vs => simp
    obtain ⟨i, r, hmin, hget, hle, hlt⟩ :=
      argminFirstBy_spec (fun p => |p.2 - sf|) (relevant.zip vals) hzne
    obtain ⟨f, a⟩ := r
    obtain ⟨hgf, hga⟩ := (zip_get?_iff relevant vals i f a).mp hget
    refine ⟨i, f, a, if |a - sf| > tol then [CatWarning.drift a] else [], hgf, hga, ?_, ?_, ?_⟩
    · show findNearestCore cache tol ct sf s hf = _
      simp only [findNearestCore, h1, h3, hmin]
      rw [if_neg (fun hcon => h2 (List.length_eq_zero.mp hcon.1))]
      rw [if_neg (fun hcon => h2 (List.length_eq_zero.mp hcon.1))]
    · intro j b hb
      obtain ⟨hj, _⟩ := List.get?_eq_some.mp hb
      have hjr : j < relevant.length := hlen ▸ hj
      have hpair : (relevant.zip vals).get? j = some (relevant.get ⟨j, hjr⟩, b) :=
        (zip_get?_iff relevant vals j _ b).mpr ⟨List.get?_eq_get hjr, hb⟩
      simpa using hle j _ hpair
    · intro j hj' b hb
      obtain ⟨hj, _⟩ := List.get?_eq_some.mp hb
      have hjr : j < relevant.length := hlen ▸ hj
      have hpair : (relevant.zip vals).get? j = some (relevant.get ⟨j, hjr⟩, b) :=
        (zip_get?_iff relevant vals j _ b).mpr ⟨List.get?_eq_get hjr, hb⟩
      simpa using hlt j hj' _ hpair
  · intro tol
    have e1 : decodeScaleFactor "bolshoi" "bolshoi_a0.5000_rockstar_halos.fits" =
        .ok (((0 : ℕ) : ℚ) + ((5000 : ℕ) : ℚ) / 10 ^ (4 : ℕ)) := rfl
    have e2 : decodeScaleFactor "bolshoi" "bolshoi_a0.7000_rockstar_halos.fits" =
        .ok (((0 : ℕ) : ℚ) + ((7000 : ℕ) : ℚ) / 10 ^ (4 : ℕ)) := rfl
    have e3 : decodeScaleFactor "bolshoi" "bolshoi_a0.9000_rockstar_halos.fits" =
        .ok (((0 : ℕ) : ℚ) + ((9000 : ℕ) : ℚ) / 10 ^ (4 : ℕ)) := rfl
    rw [show (((0 : ℕ) : ℚ) + ((5000 : ℕ) : ℚ) / 10 ^ (4 : ℕ)) = 1 / 2 by norm_num] at e1
    rw [show (((0 : ℕ) : ℚ) + ((7000 : ℕ) : ℚ) / 10 ^ (4 : ℕ)) = 7 / 10 by norm_num] at e2
    rw [show (((0 : ℕ) : ℚ) + ((9000 : ℕ) : ℚ) / 10 ^ (4 : ℕ)) = 9 / 10 by norm_num] at e3
    have hids : identifyRelevantCatalogs
        ["bolshoi_a0.5000_rockstar_halos.fits", "bolshoi_a0.7000_rockstar_halos.fits",
          "bolshoi_a0.9000_rockstar_halos.fits"] (some (fixPlural "halos")) (some "bolshoi")
        (effectiveHaloFinder (fixPlural "halos") (some "rockstar")) =
        .ok ["bolshoi_a0.5000_rockstar_halos.fits", "bolshoi_a0.7000_rockstar_halos.fits",
          "bolshoi_a0.9000_rockstar_halos.fits"] := rfl
    have hdec : mapExcept (decodeScaleFactor "bolshoi")
        ["bolshoi_a0.5000_rockstar_halos.fits", "bolshoi_a0.7000_rockstar_halos.fits",
          "bolshoi_a0.9000_rockstar_halos.fits"] = .ok [1 / 2, 7 / 10, 9 / 10] := by
      simp only [mapExcept, e1, e2, e3]
    have ha1 : |(1 / 2 : ℚ) - 13 / 20| = 3 / 20 := by
      rw [abs_of_neg (by norm_num)]; norm_num
    have ha2 : |(7 / 10 : ℚ) - 13 / 20| = 1 / 20 := by
      rw [abs_of_pos (by norm_num)]; norm_num
    have ha3 : |(9 / 10 : ℚ) - 13 / 20| = 1 / 4 := by
      rw [abs_of_pos (by norm_num)]; norm_num
    have hc23 : |(7 / 10 : ℚ) - 13 / 20| ≤ |(9 / 10 : ℚ) - 13 / 20| := by
      rw [ha2, ha3]; norm_num
    have hc12 : ¬(|(1 / 2 : ℚ) - 13 / 20| ≤ |(7 / 10 : ℚ) - 13 / 20|) := by
      rw [ha1, ha2]; norm_num
    have hzip : (["bolshoi_a0.5000_rockstar_halos.fits", "bolshoi_a0.7000_rockstar_halos.fits",
          "bolshoi_a0.9000_rockstar_halos.fits"] : List String).zip
        ([1 / 2, 7 / 10, 9 / 10] : List ℚ) =
        [("bolshoi_a0.5000_rockstar_halos.fits", 1 / 2),
          ("bolshoi_a0.7000_rockstar_halos.fits", 7 / 10),
          ("bolshoi_a0.9000_rockstar_halos.fits", 9 / 10)] := rfl
    have htail : argminFirstBy (fun p => |p.2 - (13 / 20 : ℚ)|)
        [("bolshoi_a0.7000_rockstar_halos.fits", 7 / 10),
          ("bolshoi_a0.9000_rockstar_halos.fits", 9 / 10)] =
        some ("bolshoi_a0.7000_rockstar_halos.fits", 7 / 10) :=
      argminFirstBy_cons_le _ _ _ _ (argminFirstBy_singleton _ _) hc23
    have hargmin : argminFirstBy (fun p => |p.2 - (13 / 20 : ℚ)|)
        [("bolshoi_a0.5000_rockstar_halos.fits", 1 / 2),
          ("bolshoi_a0.7000_rockstar_halos.fits", 7 / 10),
          ("bolshoi_a0.9000_rockstar_halos.fits", 9 / 10)] =
        some ("bolshoi_a0.7000_rockstar_halos.fits", 7 / 10) :=
      argminFirstBy_cons_gt _ _ _ _ htail hc12
    refine ⟨if |(7 / 10 : ℚ) - 13 / 20| > tol then [CatWarning.drift (7 / 10)] else [], ?_⟩
    show findNearestCore
        ["bolshoi_a0.5000_rockstar_halos.fits", "bolshoi_a0.7000_rockstar_halos.fits",
          "bolshoi_a0.9000_rockstar_halos.fits"] tol "halos" (13 / 20) "bolshoi"
        (some "rockstar") =
      .ok ((some "bolshoi_a0.7000_rockstar_halos.fits", some (7 / 10)),
        if |(7 / 10 : ℚ) - 13 / 20| > tol then [CatWarning.drift (7 / 10)] else [])
    simp only [findNearestCore, hids, hdec, hzip, hargmin]
    rw [if_neg (by decide), if_neg (by decide)]

/-- Witness for C2: the general conjunct applied to a three-element cache
with integer-valued decoded scale factors. -/
theorem claim_C2_witness :
    (identifyRelevantCatalogs
        ["bolshoi_a100000_rockstar_halos.fits", "bolshoi_a300000_rockstar_halos.fits",
          "bolshoi_a900000_rockstar_halos.fits"] (some (fixPlural "halos")) (some "bolshoi")
        (effectiveHaloFinder (fixPlural "halos") (some "rockstar")) =
      .ok ["bolshoi_a100000_rockstar_halos.fits", "bolshoi_a300000_rockstar_halos.fits",
        "bolshoi_a900000_rockstar_halos.fits"]) ∧
    ((["bolshoi_a100000_rockstar_halos.fits", "bolshoi_a300000_rockstar_halos.fits",
      "bolshoi_a900000_rockstar_halos.fits"] : List String) ≠ []) ∧
    (mapExcept (decodeScaleFactor "bolshoi")
        ["bolshoi_a100000_rockstar_halos.fits", "bolshoi_a300000_rockstar_halos.fits",
          "bolshoi_a900000_rockstar_halos.fits"] =
      .ok [((100000 : ℕ) : ℚ), ((300000 : ℕ) : ℚ), ((900000 : ℕ) : ℚ)]) ∧
    (∃ (i : ℕ) (f : String) (a : ℚ) (w : List CatWarning),
      (["bolshoi_a100000_rockstar_halos.fits", "bolshoi_a300000_rockstar_halos.fits",
        "bolshoi_a900000_rockstar_halos.fits"] : List String).get? i = some f ∧
      ([((100000 : ℕ) : ℚ), ((300000 : ℕ) : ℚ), ((900000 : ℕ) : ℚ)] : List ℚ).get? i = some a ∧
      findNearestSnapshot
        ["bolshoi_a100000_rockstar_halos.fits", "bolshoi_a300000_rockstar_halos.fits",
          "bolshoi_a900000_rockstar_halos.fits"] 1 "halos" (some 1) none "bolshoi"
        (some "rockstar") = .ok ((some f, some a), w) ∧
      (∀ j b, ([((100000 : ℕ) : ℚ), ((300000 : ℕ) : ℚ), ((900000 : ℕ) : ℚ)] : List ℚ).get? j =
        some b → |a - 1| ≤ |b - 1|) ∧
      (∀ j, j < i → ∀ b,
        ([((100000 : ℕ) : ℚ), ((300000 : ℕ) : ℚ), ((900000 : ℕ) : ℚ)] : List ℚ).get? j =
          some b → |a - 1| < |b - 1|)) :=
  ⟨rfl, by decide, rfl,
    claim_C2.1
      ["bolshoi_a100000_rockstar_halos.fits", "bolshoi_a300000_rockstar_halos.fits",
        "bolshoi_a900000_rockstar_halos.fits"] 1 "halos" 1 "bolshoi" (some "rockstar")
      ["bolshoi_a100000_rockstar_halos.fits", "bolshoi_a300000_rockstar_halos.fits",
        "bolshoi_a900000_rockstar_halos.fits"]
      [((100000 : ℕ) : ℚ), ((300000 : ℕ) : ℚ), ((900000 : ℕ) : ℚ)] rfl (by decide) rfl⟩

/-- C6: when the file at `dirname/filename` exists locally, `load_catalog`
reads it and returns the parsed table without opening any URL and without
writing anything, whatever the value of `download_yn`. -/
theorem claim_C6 (Table : Type) (fs : String → Option Bytes) (parseFits : Bytes → Table)
    (net : String → Except PyError Bytes) (cfg : String → String) (dh dp dirname : String)
    (filename0 : Option String) (download_yn : Bool) (url : String) (content : Bytes)
    (h : fs (pathJoin dirname (filename0.getD dh)) = some content) :
    load_catalog Table fs parseFits net cfg dh dp dirname filename0 download_yn url =
      ⟨.ok (some (parseFits content)), [], []⟩ := by
  simp only [load_catalog, h]

/-- Witness for C6: a one-file filesystem with downloading permitted. -/
theorem claim_C6_witness :
    ((fun p => if p = "d/f" then some ([3] : Bytes) else none)
        (pathJoin "d" ((some "f").getD "dh")) = some [3]) ∧
    load_catalog Bytes (fun p => if p = "d/f" then some ([3] : Bytes) else none) id
        (fun _ => .ok []) id "dh" "dp" "d" (some "f") true "u" =
      ⟨.ok (some [3]), [], []⟩ :=
  ⟨by rfl, claim_C6 Bytes (fun p => if p = "d/f" then some ([3] : Bytes) else none) id
    (fun _ => .ok []) id "dh" "dp" "d" (some "f") true "u" [3] (by rfl)⟩

/-- C7: when the file is absent and `download_yn` is false, `load_catalog`
returns null without raising, without network access and without writes. -/
theorem claim_C7 (Table : Type) (fs : String → Option Bytes) (parseFits : Bytes → Table)
    (net : String → Except PyError Bytes) (cfg : String → String) (dh dp dirname : String)
    (filename0 : Option String) (url : String)
    (h : fs (pathJoin dirname (filename0.getD dh)) = none) :
    load_catalog Table fs parseFits net cfg dh dp dirname filename0 false url =
      ⟨.ok none, [], []⟩ := by
  simp only [load_catalog, h]
  rw [if_pos trivial]

/-- Witness for C7: an empty filesystem with downloading forbidden. -/
theorem claim_C7_witness :
    ((fun _ => none : String → Option Bytes) (pathJoin "d" ((some "f").getD "dh")) = none) ∧
    load_catalog Bytes (fun _ => none) id (fun _ => .ok []) id "dh" "dp" "d" (some "f")
        false "u" = ⟨.ok none, [], []⟩ :=
  ⟨rfl, claim_C7 Bytes (fun _ => none) id (fun _ => .ok []) id "dh" "dp" "d" (some "f")
    "u" rfl⟩

/-- C1 evaluation at the failing input: with both default catalogs missing
locally and downloading allowed, requesting the default halo catalog
filename raises `IOError` without opening any URL — the dangling `else` of
the source fires for every filename other than the default particle
filename — while requesting the default particle catalog filename does
fetch `url/filename`, write it to the particles cache directory, and
return the parsed table. -/
theorem claim_C1 :
    (load_catalog Bytes (fun _ => none) id (fun _ => .ok [7]) (fun ct => "cache/" ++ ct)
        "bolshoi_a1.0003_rockstar_halos.fits" "bolshoi_a1.0003_2e5_particles.fits"
        "dir" (some "bolshoi_a1.0003_rockstar_halos.fits") true "http://u") =
      ⟨.error .ioError, [], []⟩ ∧
    (load_catalog Bytes (fun _ => none) id (fun _ => .ok [7]) (fun ct => "cache/" ++ ct)
        "bolshoi_a1.0003_rockstar_halos.fits" "bolshoi_a1.0003_2e5_particles.fits"
        "dir" (some "bolshoi_a1.0003_2e5_particles.fits") true "http://u") =
      ⟨.ok (some [7]), ["http://u/bolshoi_a1.0003_2e5_particles.fits"],
        [("cache/particles/bolshoi_a1.0003_2e5_particles.fits", [7])]⟩ := by
  constructor
  · rfl
  · rfl

theorem npRound_intCast (m : ℤ) : npRound ((m : ℚ)) = m := by
  unfold npRound
  rw [Int.floor_intCast]
  rw [sub_self]
  rw [if_pos (by norm_num)]

theorem npRound_eval (x : ℚ) (m : ℤ) (h : x = (m : ℚ)) : npRound x = m := by
  rw [h, npRound_intCast]

theorem oomLoop_step (n : ℚ) (fuel fuel' i i' : ℕ) (hf : fuel = fuel' + 1) (hi : i' = i + 1)
    (h : ¬npRound (n / 10 ^ i) < 10) : oomLoop n fuel i = oomLoop n fuel' i' := by
  subst hf
  subst hi
  simp only [oomLoop]
  rw [if_neg h]

theorem oomLoop_found (n : ℚ) (fuel fuel' i : ℕ) (hf : fuel = fuel' + 1)
    (h : npRound (n / 10 ^ i) < 10) : oomLoop n fuel i = i := by
  subst hf
  simp only [oomLoop]
  rw [if_pos h]

/-- C9: `numptcl_to_string` encodes the magnitude of its input as the
3-character mantissa-exponent string: `5e7` for `5*10^7` and `2e6` for
`2*10^6`. -/
theorem claim_C9 :
    numptcl_to_string (5 * 10 ^ 7) = "5e7" ∧ numptcl_to_string (2 * 10 ^ 6) = "2e6" := by
  constructor
  · have hloop : oomLoop ((5 : ℚ) * 10 ^ 7) 64 0 = 7 := by
      rw [oomLoop_step _ 64 63 0 1 rfl rfl
        (by rw [npRound_eval _ 50000000 (by norm_num)]; decide)]
      rw [oomLoop_step _ 63 62 1 2 rfl rfl
        (by rw [npRound_eval _ 5000000 (by norm_num)]; decide)]
      rw [oomLoop_step _ 62 61 2 3 rfl rfl
        (by rw [npRound_eval _ 500000 (by norm_num)]; decide)]
      rw [oomLoop_step _ 61 60 3 4 rfl rfl
        (by rw [npRound_eval _ 50000 (by norm_num)]; decide)]
      rw [oomLoop_step _ 60 59 4 5 rfl rfl
        (by rw [npRound_eval _ 5000 (by norm_num)]; decide)]
      rw [oomLoop_step _ 59 58 5 6 rfl rfl
        (by rw [npRound_eval _ 500 (by norm_num)]; decide)]
      rw [oomLoop_step _ 58 57 6 7 rfl rfl
        (by rw [npRound_eval _ 50 (by norm_num)]; decide)]
      exact oomLoop_found _ 57 56 7 rfl (by rw [npRound_eval _ 5 (by norm_num)]; decide)
    simp only [numptcl_to_string, hloop]
    rw [npRound_eval _ 5 (by norm_num)]
    rw [Int.floor_intCast]
    decide
  · have hloop : oomLoop ((2 : ℚ) * 10 ^ 6) 64 0 = 6 := by
      rw [oomLoop_step _ 64 63 0 1 rfl rfl
        (by rw [npRound_eval _ 2000000 (by norm_num)]; decide)]
      rw [oomLoop_step _ 63 62 1 2 rfl rfl
        (by rw [npRound_eval _ 200000 (by norm_num)]; decide)]
      rw [oomLoop_step _ 62 61 2 3 rfl rfl
        (by rw [npRound_eval _ 20000 (by norm_num)]; decide)]
      rw [oomLoop_step _ 61 60 3 4 rfl rfl
        (by rw [npRound_eval _ 2000 (by norm_num)]; decide)]
      rw [oomLoop_step _ 60 59 4 5 rfl rfl
        (by rw [npRound_eval _ 200 (by norm_num)]; decide)]
      rw [oomLoop_step _ 59 58 5 6 rfl rfl
        (by rw [npRound_eval _ 20 (by norm_num)]; decide)]
      exact oomLoop_found _ 58 57 6 rfl (by rw [npRound_eval _ 2 (by norm_num)]; decide)
    simp only [numptcl_to_string, hloop]
    rw [npRound_eval _ 2 (by norm_num)]
    rw [Int.floor_intCast]
    decide
